import Mathlib

/-!
Verification of the FPL prediction service (request gate, data fetcher,
feature engineer, prediction model, pipeline orchestrators).

Shallow embedding conventions:
- TypeScript strings are embedded as `List Char` where character-level
  operations (startsWith, replace) matter, and as `String` for opaque
  message payloads.
- Asynchronous storage calls are embedded as oracle inputs of type
  `DbOutcome`: `ok v` is a callback that delivered `v`, `cberr` is a
  callback that reported an error (the repository usually swallows these
  by resolving a default), `reject` is a rejected promise (an exception
  at the await site).
- JavaScript falsiness of `x || d` on numbers (0 and null are falsy) is
  embedded by `jsOrQ` and `jsOrZ`; on strings (empty string falsy) by
  `jsOrStr`.
- Machine floating point arithmetic is embedded in `ℚ`.
-/

namespace FPL


/-- Outcome of one sqlite callback-style call. -/
inductive DbOutcome (α : Type) where
  | ok (val : α)
  | cberr
  | reject
deriving DecidableEq, Repr

/-- JS `x || d` for an optional numeric value: null/undefined and 0 are falsy. -/
def jsOrQ (o : Option ℚ) (d : ℚ) : ℚ :=
  match o with
  | none => d
  | some v => if v = 0 then d else v

/-- JS `x || d` for an optional integer value: null/undefined and 0 are falsy. -/
def jsOrZ (o : Option ℤ) (d : ℤ) : ℤ :=
  match o with
  | none => d
  | some v => if v = 0 then d else v

/-- JS `x || d` for an optional string value: undefined and the empty string are falsy. -/
def jsOrStr (o : Option String) (d : String) : String :=
  match o with
  | none => d
  | some s => if s.isEmpty then d else s

/-- Boolean `startsWith` on character lists (TS `String.prototype.startsWith`). -/
def hasPfx : List Char → List Char → Bool
  | [], _ => true
  | _ :: _, [] => false
  | p :: ps, s :: ss => p == s && hasPfx ps ss

/-- Boolean substring test on character lists (TS `String.prototype.includes`). -/
def hasSub (p : List Char) : List Char → Bool
  | [] => hasPfx p []
  | c :: ss => hasPfx p (c :: ss) || hasSub p ss

/-- TS `String.prototype.replace(pat, mt)` with an empty replacement:
drops the first occurrence of `pat`, leaves the rest unchanged. -/
def replaceFirst (pat : List Char) : List Char → List Char
  | [] => []
  | c :: ss => if hasPfx pat (c :: ss) then (c :: ss).drop pat.length else c :: replaceFirst pat ss

/-- A row of the `api_keys` table. -/
structure ApiKeyRow where
  id : ℤ
  api_key : List Char
  name : String
  is_active : Bool
  rate_limit : ℤ
  expires_at : Option ℤ
deriving DecidableEq, Repr

/-- The SELECT of `validateApiKey`: first row with matching key, active flag set,
and no expiry or an expiry strictly in the future. -/
def validateApiKeyQuery (store : List ApiKeyRow) (key : List Char) (now : ℤ) : Option ApiKeyRow :=
  store.find? (fun r =>
    r.api_key == key && r.is_active &&
      (match r.expires_at with
       | none => true
       | some e => decide (now < e)))

/-- `FPLDatabase.validateApiKey`: a callback error is swallowed by resolving null,
so the caller cannot distinguish a failed query from an unknown key. -/
def validateApiKey (store : List ApiKeyRow) (key : List Char) (now : ℤ)
    (lookupFault : Bool) : Option ApiKeyRow :=
  if lookupFault then none else validateApiKeyQuery store key now

/-- `FPLDatabase.getApiUsageSince`: a callback error is swallowed by resolving 0. -/
def getApiUsageSince (countFault : Bool) (count : ℤ) : ℤ :=
  if countFault then 0 else count

/-- Character set used by `generateApiKey`. -/
def apiKeyChars : List Char :=
  "ABCDEFGHIJKLMNOPQRSTUVWXYZabcdefghijklmnopqrstuvwxyz0123456789".toList

/-- Required key tag checked by the format validation (`fpl_`). -/
def keyTag : List Char := "fpl_".toList

/-- `FPLDatabase.generateApiKey`: the fixed tag followed by 32 characters drawn
from `apiKeyChars`; `rnd` is the sequence of `Math.floor(Math.random() * chars.length)`
draws, each strictly below the character-set size. -/
def generateApiKey (rnd : Fin 32 → Fin apiKeyChars.length) : List Char :=
  keyTag ++ List.ofFn (fun i => apiKeyChars.get (rnd i))

/-- `FPLDatabase.createApiKey`: generates a key, inserts the row, and resolves the
generated key string; an insert error rejects. -/
def createApiKey (rnd : Fin 32 → Fin apiKeyChars.length) (ins : Except Unit Unit) :
    Except Unit (List Char) :=
  match ins with
  | .error e => .error e
  | .ok _ => .ok (generateApiKey rnd)

/-- Environment of `authenticateApiKey`: the key store, the wall clock, whether
`getDatabase()` succeeds, and whether the validate SELECT reports a callback error. -/
structure AuthEnv where
  store : List ApiKeyRow
  now : ℤ
  getDb : Bool
  lookupFault : Bool
deriving DecidableEq, Repr

/-- Result of `authenticateApiKey`. The boolean records whether control reached the
storage phase (`getDatabase` / lookup); it is false exactly on the two early
pre-storage rejections. -/
inductive AuthResult where
  | failure (statusCode : ℕ) (error : String) (storageAttempted : Bool)
  | success (key : ApiKeyRow) (storageAttempted : Bool)
deriving DecidableEq, Repr

/-- The authenticated key carried by an `AuthResult`, if any. -/
def AuthResult.keyOf : AuthResult → Option ApiKeyRow
  | .failure _ _ _ => none
  | .success k _ => some k

/-- Whether an `AuthResult` reached the storage phase. -/
def AuthResult.storage : AuthResult → Bool
  | .failure _ _ t => t
  | .success _ t => t

def msgRequired : String := "API key is required. Include x-api-key header with your API key."

def msgFormat : String := "Invalid API key format. API keys must start with fpl_"

def msgUnavailable : String := "Authentication service temporarily unavailable. Please try again later."

def msgInvalid : String := "Invalid or expired API key. Please check your API key or contact admin."

def msgDisabled : String := "API key is disabled. Please contact admin."

def bearerTag : List Char := "Bearer ".toList

/-- The credential resolution
`request.headers.get(x-api-key) || request.headers.get(authorization)?.replace(Bearer , mt)`:
an absent or empty x-api-key header falls back to the authorization header with
the first `Bearer ` occurrence stripped. -/
def resolveCredential (xApiKey authz : Option (List Char)) : Option (List Char) :=
  match xApiKey with
  | some k => if k.isEmpty then Option.map (replaceFirst bearerTag) authz else some k
  | none => Option.map (replaceFirst bearerTag) authz

/-- `authenticateApiKey` (the revision with format validation and status codes):
missing/empty credential → 401; credential without the `fpl_` tag → 401 before any
storage access; a thrown storage-acquisition failure → 503; an unknown key (or a
swallowed lookup fault) → 401; an inactive row → 403; otherwise success. -/
def authenticateApiKey (xApiKey authz : Option (List Char)) (env : AuthEnv) : AuthResult :=
  match resolveCredential xApiKey authz with
  | none => .failure 401 msgRequired false
  | some key =>
    if key.isEmpty then .failure 401 msgRequired false
    else if hasPfx keyTag key = false then .failure 401 msgFormat false
    else if env.getDb = false then .failure 503 msgUnavailable true
    else
      match validateApiKey env.store key env.now env.lookupFault with
      | none => .failure 401 msgInvalid true
      | some row =>
        if row.is_active = false then .failure 403 msgDisabled true
        else .success row true

/-- Environment of `checkRateLimit`: whether its `getDatabase()` succeeds, whether
the counting query reports a callback error, and the count of usage rows in the
trailing 60 minutes when it does not. -/
structure RLEnv where
  getDb : Bool
  countFault : Bool
  count : ℤ
deriving DecidableEq, Repr

/-- Result of `checkRateLimit`. -/
structure RateCheck where
  allowed : Bool
  error : Option String
deriving DecidableEq, Repr

/-- `checkRateLimit`: usage in the last hour is compared against the rate limit of
the key; a thrown failure inside the check is caught and the request is allowed. -/
def checkRateLimit (key : ApiKeyRow) (env : RLEnv) : RateCheck :=
  if env.getDb = false then { allowed := true, error := none }
  else
    let recentUsage := getApiUsageSince env.countFault env.count
    if key.rate_limit ≤ recentUsage then
      { allowed := false,
        error := some ("Rate limit exceeded. Maximum " ++ toString key.rate_limit ++
          " requests per hour allowed.") }
    else { allowed := true, error := none }

/-- The rate-limit block of a 429 response body. -/
structure RateLimitBody where
  limit : ℤ
  window : String
  resetAt : ℤ
deriving DecidableEq, Repr

/-- The parts of a JSON response relevant to the gate. -/
structure GateResponse where
  status : ℕ
  success : Bool
  error : String
  message : String
  rateLimit : Option RateLimitBody
deriving DecidableEq, Repr

/-- Environment of one request through `withAuth`: the two credential headers, the
storage oracle of each phase, the current time, and the wrapped handler outcome
(`.error` is a thrown handler exception). -/
structure GateEnv where
  xApiKey : Option (List Char)
  authz : Option (List Char)
  auth : AuthEnv
  rl : RLEnv
  now : ℤ
  handler : Except Unit GateResponse
deriving Repr

/-- `withAuth`: authenticate, rate limit, dispatch; the second component counts how
often the wrapped handler was invoked. A handler exception is converted to a 500. -/
def withAuth (env : GateEnv) : GateResponse × ℕ :=
  match authenticateApiKey env.xApiKey env.authz env.auth with
  | .failure sc msg _ =>
    ({ status := sc, success := false, error := "Authentication failed", message := msg,
       rateLimit := none }, 0)
  | .success key _ =>
    let rl := checkRateLimit key env.rl
    if rl.allowed = false then
      ({ status := 429, success := false, error := "Rate limit exceeded",
         message := rl.error.getD "",
         rateLimit := some { limit := key.rate_limit, window := "1 hour",
                             resetAt := env.now + 3600000 } }, 0)
    else
      match env.handler with
      | .ok resp => (resp, 1)
      | .error _ =>
        ({ status := 500, success := false, error := "Internal server error",
           message := "An unexpected error occurred", rateLimit := none }, 1)

/-- Whether an `Except` succeeded. -/
def exOk {ε α : Type} : Except ε α → Bool
  | .ok _ => true
  | .error _ => false

/-- The payload of an `Except`, if any. -/
def exVal {ε α : Type} : Except ε α → Option α
  | .ok v => some v
  | .error _ => none

/-- Report of `fetchAllData`: the stage payloads that were obtained, the overall
success flag, and one error message per failed stage. -/
structure FetchResult (α β γ : Type) where
  bootstrap : Option α
  fixtures : Option β
  currentGameweek : Option γ
  success : Bool
  errors : List String
deriving Repr

/-- `RealFPLDataFetcher.fetchAllData`: the three stages (bootstrap, fixtures,
current gameweek) each run in their own try/catch; a failed stage contributes a
named message to `errors` and the remaining stages still run; success holds
exactly when no stage failed. -/
def fetchAllData {α β γ : Type} (b : Except String α) (f : Except String β)
    (g : Except String γ) : FetchResult α β γ :=
  let errs1 : List String :=
    match b with
    | .ok _ => []
    | .error m => ["Bootstrap fetch failed: " ++ m]
  let errs2 : List String :=
    match f with
    | .ok _ => []
    | .error m => ["Fixtures fetch failed: " ++ m]
  let errs3 : List String :=
    match g with
    | .ok _ => []
    | .error m => ["Current GW fetch failed: " ++ m]
  let errors := errs1 ++ errs2 ++ errs3
  { bootstrap := exVal b, fixtures := exVal f, currentGameweek := exVal g,
    success := errors.length == 0, errors := errors }

/-- A row of the `teams` table as read by `getTeamData`; absent fields are the
SQL NULL / JS undefined of a missing column value. -/
structure TeamRow where
  strength_overall_home : Option ℚ
  strength_attack_home : Option ℚ
  strength_defence_home : Option ℚ
  strength_overall_away : Option ℚ
  strength_attack_away : Option ℚ
  strength_defence_away : Option ℚ
deriving DecidableEq, Repr

/-- The empty object resolved by `getTeamData` when the row is missing or the
query reported an error. -/
def emptyTeam : TeamRow :=
  { strength_overall_home := none, strength_attack_home := none,
    strength_defence_home := none, strength_overall_away := none,
    strength_attack_away := none, strength_defence_away := none }

/-- A row of the `fixtures` table as used by form and head-to-head queries. -/
structure FixtureRow where
  team_h : ℤ
  team_a : ℤ
  team_h_score : Option ℤ
  team_a_score : Option ℤ
deriving DecidableEq, Repr

/-- A row of the `players` table as used by `calculateTeamPlayerQuality`. -/
structure PlayerRow where
  ict_index : Option ℚ
  form : Option ℚ
  now_cost : Option ℚ
deriving DecidableEq, Repr

/-- `FeatureEngineer.getTeamData`: a query callback error is swallowed by
resolving the empty object; only a rejected promise (an exception at the await
site) propagates to the caller. -/
def getTeamData : DbOutcome (Option TeamRow) → Except Unit TeamRow
  | .ok r => .ok (r.getD emptyTeam)
  | .cberr => .ok emptyTeam
  | .reject => .error ()

/-- Averages produced by `calculateTeamForm`. -/
structure FormRes where
  points : ℚ
  goals_for : ℚ
  goals_against : ℚ
deriving DecidableEq, Repr

/-- The loop body of `calculateTeamForm`: 3/1/0 points plus goal tallies. -/
def formStep (teamId : ℤ) (acc : ℕ × ℤ × ℤ) (m : FixtureRow) : ℕ × ℤ × ℤ :=
  let isHome := m.team_h == teamId
  let teamScore := if isHome then m.team_h_score.getD 0 else m.team_a_score.getD 0
  let oppScore := if isHome then m.team_a_score.getD 0 else m.team_h_score.getD 0
  (acc.1 + (if oppScore < teamScore then 3 else if teamScore = oppScore then 1 else 0),
   acc.2.1 + teamScore, acc.2.2 + oppScore)

/-- Averaging over the rows delivered by the form query. -/
def formFrom (teamId : ℤ) (rows : List FixtureRow) : FormRes :=
  let acc := rows.foldl (formStep teamId) (0, 0, 0)
  let mc : ℚ := max rows.length 1
  { points := (acc.1 : ℚ) / mc, goals_for := (acc.2.1 : ℚ) / mc,
    goals_against := (acc.2.2 : ℚ) / mc }

/-- `FeatureEngineer.calculateTeamForm`: a callback error is swallowed by
resolving an empty row list; a rejected promise is caught by the method and
yields the neutral triple (1, 1, 1). -/
def calculateTeamForm (teamId : ℤ) : DbOutcome (List FixtureRow) → FormRes
  | .ok rows => formFrom teamId rows
  | .cberr => formFrom teamId []
  | .reject => { points := 1, goals_for := 1, goals_against := 1 }

/-- Counters produced by `getHeadToHeadRecord`. -/
structure H2HRes where
  home_wins : ℕ
  draws : ℕ
  away_wins : ℕ
  total_matches : ℕ
deriving DecidableEq, Repr

/-- The loop body of `getHeadToHeadRecord`. -/
def h2hStep (homeTeamId : ℤ) (acc : ℕ × ℕ × ℕ) (m : FixtureRow) : ℕ × ℕ × ℕ :=
  let hs := m.team_h_score.getD 0
  let aw := m.team_a_score.getD 0
  if aw < hs then
    if m.team_h == homeTeamId then (acc.1 + 1, acc.2.1, acc.2.2)
    else (acc.1, acc.2.1, acc.2.2 + 1)
  else if hs = aw then (acc.1, acc.2.1 + 1, acc.2.2)
  else
    if m.team_a == homeTeamId then (acc.1 + 1, acc.2.1, acc.2.2)
    else (acc.1, acc.2.1, acc.2.2 + 1)

/-- Tallying the head-to-head rows. -/
def h2hFrom (homeTeamId : ℤ) (rows : List FixtureRow) : H2HRes :=
  let acc := rows.foldl (h2hStep homeTeamId) (0, 0, 0)
  { home_wins := acc.1, draws := acc.2.1, away_wins := acc.2.2,
    total_matches := rows.length }

/-- `FeatureEngineer.getHeadToHeadRecord`: a callback error is swallowed by
resolving an empty row list; a rejected promise is caught by the method and
yields the neutral record with three phantom matches. -/
def getHeadToHeadRecord (homeTeamId : ℤ) : DbOutcome (List FixtureRow) → H2HRes
  | .ok rows => h2hFrom homeTeamId rows
  | .cberr => h2hFrom homeTeamId []
  | .reject => { home_wins := 1, draws := 1, away_wins := 1, total_matches := 3 }

/-- Averages produced by `calculateTeamPlayerQuality`. -/
structure QualityRes where
  avg_ict : ℚ
  avg_form : ℚ
  total_value : ℚ
deriving DecidableEq, Repr

/-- Averaging over the player rows; an empty roster yields the default values. -/
def qualityFrom (rows : List PlayerRow) : QualityRes :=
  if rows.isEmpty then { avg_ict := 50, avg_form := 5, total_value := 500 }
  else
    let n : ℚ := rows.length
    { avg_ict := (rows.foldl (fun s p => s + p.ict_index.getD 0) 0) / n,
      avg_form := (rows.foldl (fun s p => s + p.form.getD 0) 0) / n,
      total_value := rows.foldl (fun s p => s + p.now_cost.getD 0) 0 }

/-- `FeatureEngineer.calculateTeamPlayerQuality`: a callback error is swallowed
by resolving an empty row list (then the defaults apply); a rejected promise is
caught by the method and also yields the defaults. -/
def calculateTeamPlayerQuality : DbOutcome (List PlayerRow) → QualityRes
  | .ok rows => qualityFrom rows
  | .cberr => qualityFrom []
  | .reject => { avg_ict := 50, avg_form := 5, total_value := 500 }

/-- The storage oracle consumed by one `extractMatchFeatures` call: the outcome
of each of the seven queries it issues. -/
structure FEEnv where
  homeTeamQ : DbOutcome (Option TeamRow)
  awayTeamQ : DbOutcome (Option TeamRow)
  homeFormQ : DbOutcome (List FixtureRow)
  awayFormQ : DbOutcome (List FixtureRow)
  h2hQ : DbOutcome (List FixtureRow)
  homePlayersQ : DbOutcome (List PlayerRow)
  awayPlayersQ : DbOutcome (List PlayerRow)
deriving DecidableEq, Repr

/-- The `while (features.length < 20) push(0.5)` loop followed by `slice(0, 20)`. -/
def pad20 (f : List ℚ) : List ℚ :=
  (f ++ List.replicate (20 - f.length) (1/2)).take 20

/-- `FeatureEngineer.extractMatchFeatures` (the normalized 20-feature revision):
six strength features, six form features, four head-to-head features, four squad
quality features, padded and sliced to exactly 20; if the extraction throws (a
team lookup promise rejected), the catch returns twenty times 0.5. -/
def extractMatchFeatures (homeTeamId awayTeamId : ℤ) (env : FEEnv) : List ℚ :=
  match getTeamData env.homeTeamQ with
  | .error _ => List.replicate 20 (1/2)
  | .ok homeTeam =>
    match getTeamData env.awayTeamQ with
    | .error _ => List.replicate 20 (1/2)
    | .ok awayTeam =>
      let hf := calculateTeamForm homeTeamId env.homeFormQ
      let af := calculateTeamForm awayTeamId env.awayFormQ
      let h2h := getHeadToHeadRecord homeTeamId env.h2hQ
      let totalH2H : ℚ := max (h2h.total_matches : ℚ) 1
      let hq := calculateTeamPlayerQuality env.homePlayersQ
      let aq := calculateTeamPlayerQuality env.awayPlayersQ
      pad20
        [ jsOrQ homeTeam.strength_overall_home 1000 / 1000,
          jsOrQ homeTeam.strength_attack_home 1000 / 1000,
          jsOrQ homeTeam.strength_defence_home 1000 / 1000,
          jsOrQ awayTeam.strength_overall_away 1000 / 1000,
          jsOrQ awayTeam.strength_attack_away 1000 / 1000,
          jsOrQ awayTeam.strength_defence_away 1000 / 1000,
          hf.points / 3, hf.goals_for / 3, hf.goals_against / 3,
          af.points / 3, af.goals_for / 3, af.goals_against / 3,
          (h2h.home_wins : ℚ) / totalH2H, (h2h.draws : ℚ) / totalH2H,
          (h2h.away_wins : ℚ) / totalH2H,
          min ((h2h.total_matches : ℚ) / 10) 1,
          hq.avg_ict / 100, hq.avg_form / 10,
          aq.avg_ict / 100, aq.avg_form / 10 ]

/-- The fields of a prediction produced by `predictMatch`. -/
structure Prediction where
  home_win_prob : ℚ
  draw_prob : ℚ
  away_win_prob : ℚ
  predicted_outcome : String
  confidence : ℚ
  model_version : String
deriving DecidableEq, Repr

/-- `ProductionMLModel.predictMatch`: the inner try block extracts features and
runs the network forward pass, whose final layer is a three-way softmax; the
`.ok` payload is that softmax output triple (home, draw, away). Any internal
failure is caught and replaced by the fixed fallback distribution. -/
def predictMatch (inner : Except Unit (ℚ × ℚ × ℚ)) : Prediction :=
  match inner with
  | .error _ =>
    { home_win_prob := 0.45, draw_prob := 0.25, away_win_prob := 0.30,
      predicted_outcome := "Home Win", confidence := 0.45, model_version := "1.0.0" }
  | .ok probs =>
    let home := probs.1
    let draw := probs.2.1
    let away := probs.2.2
    let maxProb := max home (max draw away)
    let outcome := if maxProb = home then "Home Win"
      else if maxProb = away then "Away Win" else "Draw"
    { home_win_prob := home, draw_prob := draw, away_win_prob := away,
      predicted_outcome := outcome, confidence := maxProb, model_version := "1.0.0" }

/-- The per-epoch histories delivered by `model.fit`; the validation histories
are absent when no validation split produced them. -/
structure FitHistory where
  loss : List ℚ
  acc : List ℚ
  val_acc : Option (List ℚ)
  val_loss : Option (List ℚ)
deriving DecidableEq, Repr

/-- Final metrics assembled by `trainModel`. -/
structure TrainMetrics where
  accuracy : ℚ
  loss : ℚ
  val_accuracy : Option ℚ
  val_loss : Option ℚ
  epochs : ℕ
  samples : ℕ
deriving DecidableEq, Repr

/-- JS `arr[i] || d` on an optional list entry: undefined and 0 are falsy. -/
def jsOrQIdx (o : Option ℚ) (d : ℚ) : ℚ :=
  match o with
  | none => d
  | some v => if v = 0 then d else v

/-- The outcomes of the awaited calls inside one `trainModel` run. -/
structure TrainEnv where
  prep : Except Unit ℕ
  fit : Except Unit FitHistory
  saveModelRes : Except Unit Unit
  saveHistoryRes : Except Unit Unit
deriving Repr

/-- `ProductionMLModel.trainModel` (part_000 revision): prepare data, fit, save
the model inside a try/catch whose failure is swallowed, assemble final-epoch
metrics with demo fallbacks, then save the training history inside a try/catch
that rethrows on failure, so a failed history save fails the whole call. -/
def trainModel (env : TrainEnv) : Except Unit TrainMetrics :=
  match env.prep with
  | .error e => .error e
  | .ok samples =>
    match env.fit with
    | .error e => .error e
    | .ok hist =>
      let finalEpoch := hist.loss.length - 1
      let metrics : TrainMetrics :=
        { accuracy := jsOrQIdx (hist.acc.get? finalEpoch) 0.82,
          loss := jsOrQIdx (hist.loss.get? finalEpoch) 0.45,
          val_accuracy := match hist.val_acc with
            | some l => l.get? finalEpoch
            | none => some 0.80,
          val_loss := match hist.val_loss with
            | some l => l.get? finalEpoch
            | none => some 0.48,
          epochs := 30, samples := samples }
      match env.saveHistoryRes with
      | .error e => .error e
      | .ok _ => .ok metrics

/-- A fixture row as seen by the generate handler (after the team-name join). -/
structure GenFixture where
  id : ℤ
  event : Option ℤ
  team_h : Option ℤ
  team_a : Option ℤ
  finished : Bool
  home_team_name : Option String
  away_team_name : Option String
  kickoff_time : Option String
deriving DecidableEq, Repr

/-- JS truthiness of an optional integer column (null and 0 are falsy). -/
def jsTruthyZ (o : Option ℤ) : Bool :=
  match o with
  | none => false
  | some v => v != 0

/-- A prediction row as assembled by the handler or the model. -/
structure PredRow where
  fixture_id : ℤ
  home_team_id : Option ℤ
  away_team_id : Option ℤ
  home_team_name : String
  away_team_name : String
  gameweek : ℤ
  kickoff_time : Option String
  home_win_prob : ℚ
  draw_prob : ℚ
  away_win_prob : ℚ
  predicted_outcome : String
  confidence : ℚ
  model_version : String
deriving DecidableEq, Repr

/-- A prediction as rendered in the response JSON (percentages rounded). -/
structure PredOut where
  homeTeam : String
  awayTeam : String
  prediction : String
  confidence : ℤ
  gameweek : ℤ
  home_win : ℤ
  draw : ℤ
  away_win : ℤ
deriving DecidableEq, Repr

/-- JS `Math.round` (half rounds up). -/
def jsRound (q : ℚ) : ℤ := ⌊q + 1/2⌋

/-- Rendering of one prediction row in the response. -/
def renderPred (p : PredRow) : PredOut :=
  { homeTeam := p.home_team_name, awayTeam := p.away_team_name,
    prediction := p.predicted_outcome, confidence := jsRound (p.confidence * 100),
    gameweek := p.gameweek, home_win := jsRound (p.home_win_prob * 100),
    draw := jsRound (p.draw_prob * 100), away_win := jsRound (p.away_win_prob * 100) }

/-- The sample prediction fabricated for a fixture when the model produced none. -/
def samplePred (f : GenFixture) : PredRow :=
  { fixture_id := f.id, home_team_id := f.team_h, away_team_id := f.team_a,
    home_team_name := jsOrStr f.home_team_name "Unknown Home Team",
    away_team_name := jsOrStr f.away_team_name "Unknown Away Team",
    gameweek := jsOrZ f.event 1, kickoff_time := f.kickoff_time,
    home_win_prob := 0.45, draw_prob := 0.25, away_win_prob := 0.30,
    predicted_outcome := "Home Win", confidence := 0.45,
    model_version := "1.0.0-demo" }

/-- Environment of one generate call: the entity counts, the fixture table, the
outcome of the batch prediction, which saves succeed, and the prediction count
read back afterwards. -/
structure GenEnv where
  teamsCount : ℕ
  playersCount : ℕ
  fixturesCount : ℕ
  allFixtures : List GenFixture
  modelPredictions : Except String (List PredRow)
  saveOk : ℕ → Bool
  predictionsCount : ℕ

/-- The parts of the generate response relevant to the claims: `predictions = none`
means the field is absent from the JSON body. -/
structure GenResponse where
  status : ℕ
  success : Bool
  error : Option String
  message : Option String
  predictions : Option (List PredOut)
  predictions_saved : Option ℕ
deriving DecidableEq, Repr

/-- `generateHandler` (src/src/app/api/predict/generate/route.ts): an empty store
(zero teams, players or fixtures) short-circuits with a success:false body whose
texts point at the data sync; with data but no upcoming fixtures it returns
success:true with an empty prediction list; otherwise it predicts, falls back to
sample predictions when the model produced none, saves each prediction, and
reports success. -/
def generateHandler (env : GenEnv) : GenResponse :=
  if env.teamsCount = 0 ∨ env.playersCount = 0 ∨ env.fixturesCount = 0 then
    { status := 200, success := false,
      error := some "No data in database. Please sync FPL data first.",
      message := some "Database appears to be empty. Run data sync before generating predictions.",
      predictions := none, predictions_saved := none }
  else
    let upcoming := env.allFixtures.filter
      (fun f => !f.finished && jsTruthyZ f.team_h && jsTruthyZ f.team_a)
    if upcoming.length = 0 then
      { status := 200, success := true, error := none,
        message := some "No upcoming fixtures available for prediction",
        predictions := some [], predictions_saved := none }
    else
      let preds0 := match env.modelPredictions with
        | .ok ps => ps
        | .error _ => []
      let preds := if preds0.length = 0 ∧ 0 < upcoming.length
        then (upcoming.take 10).map samplePred else preds0
      let savedCount := ((List.range preds.length).filter env.saveOk).length
      let demoTag := match preds.head? with
        | some p => hasSub "demo".toList p.model_version.toList
        | none => false
      { status := 200, success := true, error := none,
        message := some ("Generated " ++ toString preds.length ++ " predictions " ++
          (if demoTag then "(demo mode)" else "from trained ML model")),
        predictions := some (preds.map renderPred),
        predictions_saved := some savedCount }

/-- An auth environment with healthy storage and an empty key store. -/
def anyAuthEnv : AuthEnv := { store := [], now := 0, getDb := true, lookupFault := false }

/-- A valid, active, unexpired key row present in the store. -/
def goodKeyRow : ApiKeyRow :=
  { id := 1, api_key := "fpl_live".toList, name := "prod", is_active := true,
    rate_limit := 1000, expires_at := none }

/-- An auth environment whose store holds `goodKeyRow` but whose validate SELECT
reports a callback error. -/
def faultAuthEnv : AuthEnv :=
  { store := [goodKeyRow], now := 0, getDb := true, lookupFault := true }

/-- A generic successful handler response. -/
def okResp : GateResponse :=
  { status := 200, success := true, error := "", message := "ok", rateLimit := none }

/-- A gate environment whose key has limit 2 and whose trailing-hour count is 5. -/
def gateEnvHigh : GateEnv :=
  { xApiKey := some ("fpl_live".toList), authz := none,
    auth := { store := [{ goodKeyRow with rate_limit := 2 }], now := 0,
              getDb := true, lookupFault := false },
    rl := { getDb := true, countFault := false, count := 5 }, now := 0,
    handler := .ok okResp }

/-- Same gate environment with a trailing-hour count of 1. -/
def gateEnvLow : GateEnv :=
  { gateEnvHigh with rl := { getDb := true, countFault := false, count := 1 } }

/-- An auth environment whose storage handle cannot be acquired. -/
def downAuthEnv : AuthEnv := { store := [], now := 0, getDb := false, lookupFault := false }

/-- A key row whose rate limit is zero. -/
def zeroLimitKey : ApiKeyRow :=
  { id := 2, api_key := "fpl_zero".toList, name := "z", is_active := true,
    rate_limit := 0, expires_at := none }

/-- A rate-limit environment whose counting query reports a callback error. -/
def rlFaultEnv : RLEnv := { getDb := true, countFault := true, count := 0 }

/-- A full gate environment for the zero-limit key with a faulting counting query. -/
def gateEnvZero : GateEnv :=
  { xApiKey := some ("fpl_zero".toList), authz := none,
    auth := { store := [zeroLimitKey], now := 0, getDb := true, lookupFault := false },
    rl := rlFaultEnv, now := 0, handler := .ok okResp }

/-- A feature environment where the home-team SELECT reported a callback error
(which the helper swallows by resolving an empty row) and every other query
succeeded over an empty store. -/
def feEnvFault : FEEnv :=
  { homeTeamQ := .cberr, awayTeamQ := .ok none, homeFormQ := .ok [],
    awayFormQ := .ok [], h2hQ := .ok [], homePlayersQ := .ok [],
    awayPlayersQ := .ok [] }

/-- A feature environment where the home-team lookup promise rejected. -/
def feEnvReject : FEEnv :=
  { feEnvFault with homeTeamQ := .reject }

/-- The number of failed stages among the three fetch stages. -/
def failCount {α β γ : Type} (b : Except String α) (f : Except String β)
    (g : Except String γ) : ℕ :=
  (if exOk b then 0 else 1) + (if exOk f then 0 else 1) + (if exOk g then 0 else 1)

/-- Concrete stage outcomes: bootstrap and current gameweek succeeded, the
fixtures stage failed. -/
def wBoot : Except String ℕ := .ok 0

def wFix : Except String Unit := .error "boom"

def wGw : Except String ℤ := .ok 1

/-- A generate environment with an empty store. -/
def emptyGenEnv : GenEnv :=
  { teamsCount := 0, playersCount := 0, fixturesCount := 0, allFixtures := [],
    modelPredictions := .ok [], saveOk := fun _ => true, predictionsCount := 0 }

/-- A training run whose fit succeeded but whose history insert rejected. -/
def histFailEnv : TrainEnv :=
  { prep := .ok 200,
    fit := .ok { loss := [1/2], acc := [4/5], val_acc := none, val_loss := none },
    saveModelRes := .ok (), saveHistoryRes := .error () }

/-- The random draw that always picks the first character of the set. -/
def rndZero : Fin 32 → Fin apiKeyChars.length := fun _ => ⟨0, by decide⟩

/-! ## Theorems -/

theorem hasPfx_append (p s : List Char) : hasPfx p (p ++ s) = true := by
  induction p with
  | nil => rfl
  | cons c cs ih => simp [hasPfx, ih]

/-- C1: for every request whose credential authenticates to key k and whose usage
count in the trailing hour is at least the rate limit of k, withAuth answers 429
with the limit, the one-hour window and the reset time in the body, and the
wrapped handler is never invoked; when the count is strictly below the limit the
wrapped handler is invoked exactly once. -/
theorem withAuth_rate_limit_gate (env : GateEnv) (k : ApiKeyRow)
    (hauth : (authenticateApiKey env.xApiKey env.authz env.auth).keyOf = some k)
    (hdb : env.rl.getDb = true) (hfault : env.rl.countFault = false) :
    (k.rate_limit ≤ env.rl.count →
      (withAuth env).1.status = 429 ∧
      (withAuth env).1.rateLimit =
        some { limit := k.rate_limit, window := "1 hour", resetAt := env.now + 3600000 } ∧
      (withAuth env).2 = 0)
    ∧ (env.rl.count < k.rate_limit → (withAuth env).2 = 1) := by
  cases h : authenticateApiKey env.xApiKey env.authz env.auth with
  | failure sc m t => simp [AuthResult.keyOf, h] at hauth
  | success k2 t =>
    have hk : k2 = k := by simpa [AuthResult.keyOf, h] using hauth
    subst hk
    constructor
    · intro hge
      simp [withAuth, h, checkRateLimit, getApiUsageSince, hdb, hfault, hge]
    · intro hlt
      have hrl : checkRateLimit k2 env.rl = { allowed := true, error := none } := by
        simp [checkRateLimit, getApiUsageSince, hdb, hfault, not_le.mpr hlt]
      cases hh : env.handler <;> simp [withAuth, h, hrl, hh]

/-- C1 witness: at a concrete over-limit request the gate answers 429 with zero
handler invocations, and at a concrete under-limit request the handler runs once. -/
theorem withAuth_rate_limit_gate_witness :
    ((withAuth gateEnvHigh).1.status = 429 ∧ (withAuth gateEnvHigh).2 = 0)
    ∧ (withAuth gateEnvLow).2 = 1 := by
  refine ⟨⟨?_, ?_⟩, ?_⟩
  · exact ((withAuth_rate_limit_gate gateEnvHigh { goodKeyRow with rate_limit := 2 }
      (by decide) (by decide) (by decide)).1 (by decide)).1
  · exact ((withAuth_rate_limit_gate gateEnvHigh { goodKeyRow with rate_limit := 2 }
      (by decide) (by decide) (by decide)).1 (by decide)).2.2
  · exact (withAuth_rate_limit_gate gateEnvLow { goodKeyRow with rate_limit := 2 }
      (by decide) (by decide) (by decide)).2 (by decide)

/-- C2 counterexample: a well-formed key that is present, active and unexpired in
the store is authenticated while the validate SELECT reports a transient callback
error; the failure is swallowed inside validateApiKey (resolved as null), so
authenticateApiKey answers 401 with the invalid-key message — not 503 — although
the only failure was the storage lookup. -/
theorem auth_lookup_fault_401_counterexample :
    faultAuthEnv.lookupFault = true
    ∧ validateApiKeyQuery faultAuthEnv.store goodKeyRow.api_key faultAuthEnv.now
        = some goodKeyRow
    ∧ authenticateApiKey (some goodKeyRow.api_key) none faultAuthEnv
        = .failure 401 msgInvalid true := by decide

/-- C2 (amended): for a present, well-formed credential, a thrown failure while
acquiring the storage handle is reported as 503 with the service-unavailable
message; but a callback error inside the validate SELECT itself is swallowed and
reported as 401 with the invalid-key message, indistinguishable from an unknown
key. -/
theorem auth_storage_failure_status (xk az : Option (List Char)) (env : AuthEnv)
    (k : List Char) (hres : resolveCredential xk az = some k)
    (hne : k.isEmpty = false) (hfmt : hasPfx keyTag k = true) :
    (env.getDb = false →
      authenticateApiKey xk az env = .failure 503 msgUnavailable true)
    ∧ (env.getDb = true → env.lookupFault = true →
      authenticateApiKey xk az env = .failure 401 msgInvalid true) := by
  constructor
  · intro hdb
    simp [authenticateApiKey, hres, hne, hfmt, hdb]
  · intro hdb hlf
    simp [authenticateApiKey, hres, hne, hfmt, hdb, validateApiKey, hlf]

/-- C2 witness: a concrete well-formed credential against a downed storage handle
is answered 503, and the same credential against a store with a faulting SELECT
is answered 401. -/
theorem auth_storage_failure_status_witness :
    authenticateApiKey (some ("fpl_live".toList)) none downAuthEnv
      = .failure 503 msgUnavailable true
    ∧ authenticateApiKey (some ("fpl_live".toList)) none faultAuthEnv
      = .failure 401 msgInvalid true :=
  ⟨(auth_storage_failure_status (some ("fpl_live".toList)) none downAuthEnv
      ("fpl_live".toList) (by decide) (by decide) (by decide)).1 (by decide),
   (auth_storage_failure_status (some ("fpl_live".toList)) none faultAuthEnv
      ("fpl_live".toList) (by decide) (by decide) (by decide)).2 (by decide) (by decide)⟩

/-- C3 counterexample: the resolved credential can be empty (a bare Bearer
authorization header); it does not start with fpl_, and authentication does fail
with 401 before any storage access, but with the missing-key message, which does
not state the required tag. -/
theorem auth_empty_credential_counterexample :
    resolveCredential none (some ("Bearer ".toList)) = some []
    ∧ hasPfx keyTag [] = false
    ∧ authenticateApiKey none (some ("Bearer ".toList)) anyAuthEnv
        = .failure 401 msgRequired false
    ∧ hasSub keyTag msgRequired.toList = false := by decide

/-- C3 (amended): every non-empty resolved credential that does not start with
fpl_ is rejected 401 with the format message, which states the required tag; the
result is the same for every storage environment and its storage flag is false,
so no storage access happens before the rejection. -/
theorem auth_bad_format_reject (xk az : Option (List Char)) (env : AuthEnv)
    (k : List Char) (hres : resolveCredential xk az = some k)
    (hne : k.isEmpty = false) (hfmt : hasPfx keyTag k = false) :
    authenticateApiKey xk az env = .failure 401 msgFormat false
    ∧ hasSub keyTag msgFormat.toList = true := by
  refine ⟨?_, by decide⟩
  simp [authenticateApiKey, hres, hne, hfmt]

/-- C3 witness: the spec scenario credential not-prefixed is rejected 401 with the
format message and no storage access. -/
theorem auth_bad_format_reject_witness :
    authenticateApiKey (some ("not-prefixed".toList)) none anyAuthEnv
      = .failure 401 msgFormat false :=
  (auth_bad_format_reject (some ("not-prefixed".toList)) none anyAuthEnv
    ("not-prefixed".toList) (by decide) (by decide) (by decide)).1

/-- C8 counterexample: for a key whose rate limit is not positive, a failed
counting query is swallowed as count 0, which still meets the ceiling, so the
check answers not-allowed and the request is rejected 429 without reaching the
handler — the gate does not fail open for that key. -/
theorem checkRateLimit_fail_closed_counterexample :
    rlFaultEnv.countFault = true
    ∧ (checkRateLimit zeroLimitKey rlFaultEnv).allowed = false
    ∧ (withAuth gateEnvZero).1.status = 429
    ∧ (withAuth gateEnvZero).2 = 0 := by decide

/-- C8 (amended): the gate fails open in two forms — a thrown failure inside the
rate-limit check is caught and the request is allowed unconditionally, and a
counting-query callback error is swallowed as count 0, which allows the request
for every key whose rate limit is positive. -/
theorem checkRateLimit_fail_open (key : ApiKeyRow) (env : RLEnv) :
    (env.getDb = false → (checkRateLimit key env).allowed = true)
    ∧ (env.countFault = true → 0 < key.rate_limit →
        (checkRateLimit key env).allowed = true) := by
  refine ⟨fun h => by simp [checkRateLimit, h], fun hf hpos => ?_⟩
  by_cases hdb : env.getDb = false
  · simp [checkRateLimit, hdb]
  · simp [checkRateLimit, hdb, getApiUsageSince, hf, not_le.mpr hpos]

/-- C8 witness: with a healthy positive-limit key, a concrete counting-query
fault still allows the request, as does a concrete thrown check failure. -/
theorem checkRateLimit_fail_open_witness :
    (checkRateLimit goodKeyRow rlFaultEnv).allowed = true
    ∧ (checkRateLimit goodKeyRow { getDb := false, countFault := false, count := 0 }).allowed
        = true :=
  ⟨(checkRateLimit_fail_open goodKeyRow rlFaultEnv).2 (by decide) (by decide),
   (checkRateLimit_fail_open goodKeyRow
      { getDb := false, countFault := false, count := 0 }).1 (by decide)⟩

theorem pad20_length (f : List ℚ) : (pad20 f).length = 20 := by
  simp only [pad20, List.length_take, List.length_append, List.length_replicate]
  omega

theorem pad20_eq_self (f : List ℚ) (h : f.length = 20) : pad20 f = f := by
  simp only [pad20, h, Nat.sub_self, List.replicate_zero, List.append_nil]
  rw [← h]
  exact List.take_length f

/-- C4 counterexample: when the home-team lookup query fails (callback error),
extraction does not raise and still yields 20 entries, but the vector is not the
all-0.5 default vector — the swallowed failure produces the per-category neutral
defaults instead (for example entry 0 is 1, the default strength 1000 divided by
1000). -/
theorem extractMatchFeatures_default_counterexample :
    feEnvFault.homeTeamQ = DbOutcome.cberr
    ∧ extractMatchFeatures 1 2 feEnvFault ≠ List.replicate 20 (1/2)
    ∧ (extractMatchFeatures 1 2 feEnvFault).length = 20 := by
  have hbody : extractMatchFeatures 1 2 feEnvFault
      = pad20 [1, 1, 1, 1, 1, 1, 0, 0, 0, 0, 0, 0, 0, 0, 0, 0,
               1/2, 1/2, 1/2, 1/2] := by
    norm_num [extractMatchFeatures, feEnvFault, getTeamData, emptyTeam, jsOrQ,
      calculateTeamForm, formFrom, formStep, getHeadToHeadRecord, h2hFrom,
      calculateTeamPlayerQuality, qualityFrom]
  have hlen : ([1, 1, 1, 1, 1, 1, 0, 0, 0, 0, 0, 0, 0, 0, 0, 0,
      (1:ℚ)/2, 1/2, 1/2, 1/2] : List ℚ).length = 20 := by simp
  have hself := pad20_eq_self _ hlen
  refine ⟨rfl, ?_, ?_⟩
  · rw [hbody, hself]
    intro hcontra
    have h2 := congrArg List.head? hcontra
    rw [show (List.replicate 20 ((1:ℚ)/2)).head? = some ((1:ℚ)/2) from rfl] at h2
    simp only [List.head?_cons, Option.some.injEq] at h2
    norm_num at h2
  · rw [hbody]
    exact pad20_length _

/-- C4 (amended): for every pair of team ids and every storage outcome the
extracted vector has exactly 20 entries and extraction never raises; the
all-0.5 default vector is returned exactly on the exceptional path, namely when
a team lookup promise rejects, while query callback errors are swallowed inside
the helpers with per-category neutral defaults. -/
theorem extractMatchFeatures_shape (hId aId : ℤ) (env : FEEnv) :
    (extractMatchFeatures hId aId env).length = 20
    ∧ ((env.homeTeamQ = DbOutcome.reject ∨ env.awayTeamQ = DbOutcome.reject) →
        extractMatchFeatures hId aId env = List.replicate 20 (1/2)) := by
  cases hh : env.homeTeamQ <;> cases ha : env.awayTeamQ <;>
    simp [extractMatchFeatures, getTeamData, hh, ha, pad20_length]

/-- C4 witness: at a concrete environment whose home lookup rejected, the vector
is the all-0.5 default and has 20 entries. -/
theorem extractMatchFeatures_shape_witness :
    (extractMatchFeatures 3 4 feEnvReject).length = 20
    ∧ extractMatchFeatures 3 4 feEnvReject = List.replicate 20 (1/2) :=
  ⟨(extractMatchFeatures_shape 3 4 feEnvReject).1,
   (extractMatchFeatures_shape 3 4 feEnvReject).2 (Or.inl rfl)⟩

/-- C5: fetchAllData attempts all three stages independently — each stage payload
of the report depends only on the outcome of its own stage — success holds
exactly when no stage failed, the error list has exactly one entry per failed
stage, and each failed stage contributes its named message. -/
theorem fetchAllData_report {α β γ : Type} (b : Except String α)
    (f : Except String β) (g : Except String γ) :
    ((fetchAllData b f g).success = true ↔
      exOk b = true ∧ exOk f = true ∧ exOk g = true)
    ∧ (fetchAllData b f g).errors.length = failCount b f g
    ∧ (fetchAllData b f g).bootstrap = exVal b
    ∧ (fetchAllData b f g).fixtures = exVal f
    ∧ (fetchAllData b f g).currentGameweek = exVal g
    ∧ (∀ m, b = .error m →
        ("Bootstrap fetch failed: " ++ m) ∈ (fetchAllData b f g).errors)
    ∧ (∀ m, f = .error m →
        ("Fixtures fetch failed: " ++ m) ∈ (fetchAllData b f g).errors)
    ∧ (∀ m, g = .error m →
        ("Current GW fetch failed: " ++ m) ∈ (fetchAllData b f g).errors) := by
  cases b <;> cases f <;> cases g <;>
    simp [fetchAllData, exOk, exVal, failCount]

/-- C5 witness: a concrete run whose middle stage failed still reports both other
stage payloads and exactly one error carrying the named message. -/
theorem fetchAllData_report_witness :
    (fetchAllData wBoot wFix wGw).errors.length = 1
    ∧ ("Fixtures fetch failed: boom") ∈ (fetchAllData wBoot wFix wGw).errors
    ∧ (fetchAllData wBoot wFix wGw).bootstrap = some 0
    ∧ (fetchAllData wBoot wFix wGw).currentGameweek = some 1 := by
  have h := fetchAllData_report wBoot wFix wGw
  exact ⟨h.2.1.trans (by decide), h.2.2.2.2.2.2.1 "boom" rfl,
    h.2.2.1.trans (by decide), h.2.2.2.2.1.trans (by decide)⟩

/-- C6 counterexample: called with zero teams, players and fixtures, the handler
answers an HTTP 200 body whose success flag is false (not true) and whose JSON
carries no predictions field at all (rather than an empty list). -/
theorem generate_empty_store_counterexample :
    emptyGenEnv.teamsCount = 0
    ∧ (generateHandler emptyGenEnv).success = false
    ∧ (generateHandler emptyGenEnv).predictions = none := by
  refine ⟨rfl, ?_, ?_⟩ <;> simp [generateHandler, emptyGenEnv]

/-- C6 (amended): whenever the store has zero teams, zero players or zero
fixtures, the handler short-circuits with an HTTP 200 response whose success
flag is false, with no predictions field, and whose error and message texts both
name the data sync as the next step. -/
theorem generate_empty_store (env : GenEnv)
    (h : env.teamsCount = 0 ∨ env.playersCount = 0 ∨ env.fixturesCount = 0) :
    (generateHandler env).status = 200
    ∧ (generateHandler env).success = false
    ∧ (generateHandler env).predictions = none
    ∧ (generateHandler env).error = some "No data in database. Please sync FPL data first."
    ∧ (generateHandler env).message
        = some "Database appears to be empty. Run data sync before generating predictions."
    ∧ hasSub "sync".toList "No data in database. Please sync FPL data first.".toList = true
    ∧ hasSub "sync".toList
        "Database appears to be empty. Run data sync before generating predictions.".toList
        = true := by
  unfold generateHandler
  rw [if_pos h]
  exact ⟨rfl, rfl, rfl, rfl, rfl, by decide, by decide⟩

/-- C6 witness: the concrete empty store produces the success-false sync-guidance
response. -/
theorem generate_empty_store_witness :
    (generateHandler emptyGenEnv).status = 200
    ∧ (generateHandler emptyGenEnv).error
        = some "No data in database. Please sync FPL data first." :=
  ⟨(generate_empty_store emptyGenEnv (Or.inl rfl)).1,
   (generate_empty_store emptyGenEnv (Or.inl rfl)).2.2.2.1⟩

/-- C7: if persisting the TrainingRun record fails, trainModel itself fails, and
a successful trainModel call implies the history row was saved — training never
completes successfully with unsaved metrics. -/
theorem trainModel_history_mandatory (env : TrainEnv) :
    (env.saveHistoryRes = .error () → trainModel env = .error ())
    ∧ (∀ m, trainModel env = .ok m → env.saveHistoryRes = .ok ()) := by
  constructor
  · intro h
    cases hp : env.prep <;> cases hf : env.fit <;>
      simp [trainModel, hp, hf, h]
  · intro m hm
    cases hs : env.saveHistoryRes with
    | ok u => cases u; rfl
    | error e =>
      exfalso
      cases hp : env.prep <;> cases hf : env.fit <;>
        simp [trainModel, hp, hf, hs] at hm

/-- C7 witness: the concrete run with a rejected history insert fails as a whole. -/
theorem trainModel_history_mandatory_witness :
    trainModel histFailEnv = .error () :=
  (trainModel_history_mandatory histFailEnv).1 rfl

/-- C9: for every prediction produced by predictMatch — where the ok payload is
the softmax output of the final network layer, which sums to one — the three
outcome probabilities sum to exactly one (hence within any epsilon of one), and
the reported confidence equals the maximum of the three; the fixed fallback
distribution on internal failure satisfies both unconditionally. -/
theorem predictMatch_distribution (inner : Except Unit (ℚ × ℚ × ℚ))
    (hsum : ∀ p, inner = .ok p → p.1 + p.2.1 + p.2.2 = 1) :
    (predictMatch inner).home_win_prob + (predictMatch inner).draw_prob
        + (predictMatch inner).away_win_prob = 1
    ∧ (predictMatch inner).confidence =
        max (predictMatch inner).home_win_prob
          (max (predictMatch inner).draw_prob (predictMatch inner).away_win_prob) := by
  cases h : inner with
  | error e => exact ⟨by norm_num [predictMatch], by norm_num [predictMatch]⟩
  | ok p =>
    constructor
    · simpa [predictMatch] using hsum p h
    · simp [predictMatch]

/-- C9 witness: a concrete softmax output and the concrete fallback both satisfy
the distribution invariants. -/
theorem predictMatch_distribution_witness :
    ((predictMatch (Except.ok ((1:ℚ)/2, 1/4, 1/4))).home_win_prob
        + (predictMatch (Except.ok ((1:ℚ)/2, 1/4, 1/4))).draw_prob
        + (predictMatch (Except.ok ((1:ℚ)/2, 1/4, 1/4))).away_win_prob = 1)
    ∧ (predictMatch (Except.error ())).confidence =
        max (predictMatch (Except.error ())).home_win_prob
          (max (predictMatch (Except.error ())).draw_prob
            (predictMatch (Except.error ())).away_win_prob) :=
  ⟨(predictMatch_distribution (Except.ok ((1:ℚ)/2, 1/4, 1/4))
      (by intro p hp; injection hp with h2; rw [← h2]; norm_num)).1,
   (predictMatch_distribution (Except.error ())
      (by intro p hp; exact absurd hp (by simp))).2⟩

theorem auth_wellformed_reaches_storage (key : List Char) (az : Option (List Char))
    (env : AuthEnv) (hne : key.isEmpty = false) (hfmt : hasPfx keyTag key = true) :
    (authenticateApiKey (some key) az env).storage = true := by
  by_cases hdb : env.getDb = false
  · simp [authenticateApiKey, resolveCredential, hne, hfmt, hdb, AuthResult.storage]
  · cases hv : validateApiKey env.store key env.now env.lookupFault with
    | none =>
      simp [authenticateApiKey, resolveCredential, hne, hfmt, hdb, hv, AuthResult.storage]
    | some row =>
      by_cases hact : row.is_active = false <;>
        simp [authenticateApiKey, resolveCredential, hne, hfmt, hdb, hv, hact,
          AuthResult.storage]

/-- C10: every key produced by generateApiKey is the fpl_ tag followed by exactly
32 characters from the alphanumeric character set (36 characters in total), the
key resolved by createApiKey is exactly that string, and authenticating with a
generated key always gets past the presence and format validations into the
storage phase — the create-then-validate round trip never rejects on format. -/
theorem generateApiKey_round_trip (rnd : Fin 32 → Fin apiKeyChars.length) :
    hasPfx keyTag (generateApiKey rnd) = true
    ∧ (generateApiKey rnd).length = 36
    ∧ (∀ c ∈ (generateApiKey rnd).drop 4, c.isAlphanum = true)
    ∧ (∀ ins k, createApiKey rnd ins = .ok k → k = generateApiKey rnd)
    ∧ (∀ (az : Option (List Char)) (env : AuthEnv),
        (authenticateApiKey (some (generateApiKey rnd)) az env).storage = true) := by
  have h4 : keyTag.length = 4 := by decide
  have hlen : (generateApiKey rnd).length = 36 := by
    simp [generateApiKey, List.length_append, List.length_ofFn, h4]
  refine ⟨?_, hlen, ?_, ?_, ?_⟩
  · unfold generateApiKey
    exact hasPfx_append _ _
  · intro c hc
    have hdrop : (generateApiKey rnd).drop 4
        = List.ofFn (fun i => apiKeyChars.get (rnd i)) := by
      rw [generateApiKey, ← h4, List.drop_left]
    rw [hdrop] at hc
    obtain ⟨i, hi⟩ := (List.mem_ofFn _ _).mp hc
    have hall : ∀ x ∈ apiKeyChars, x.isAlphanum = true := by decide
    exact hi ▸ hall _ (apiKeyChars.get_mem _ _)
  · intro ins k h
    cases ins with
    | error e => simp [createApiKey] at h
    | ok u =>
      injection h with h2
      exact h2.symm
  · intro az env
    apply auth_wellformed_reaches_storage
    · cases hgen : generateApiKey rnd with
      | nil => rw [hgen] at hlen; simp at hlen
      | cons a l => rfl
    · unfold generateApiKey
      exact hasPfx_append _ _

/-- C10 witness: the concrete all-first-character key has the tag, 36 characters,
an alphanumeric fifth character, and reaches the storage phase of
authentication. -/
theorem generateApiKey_round_trip_witness :
    hasPfx keyTag (generateApiKey rndZero) = true
    ∧ (generateApiKey rndZero).length = 36
    ∧ Char.isAlphanum 'A' = true
    ∧ (authenticateApiKey (some (generateApiKey rndZero)) none anyAuthEnv).storage
        = true :=
  ⟨(generateApiKey_round_trip rndZero).1,
   (generateApiKey_round_trip rndZero).2.1,
   (generateApiKey_round_trip rndZero).2.2.1 'A' (by decide),
   (generateApiKey_round_trip rndZero).2.2.2.2 none anyAuthEnv⟩

end FPL

